import Mathlib

/-!
Verification of the CardDemo API request-processing pipeline
(`carddemo-api`), a FastAPI backend.  The Python sources are embedded
shallowly: pure string manipulation becomes functions on `String` /
`List Char`, the stateful retry loop and rate limiter become explicit
state-passing functions, and Python exceptions become `Except` values.
Floating-point timestamps and delays are modelled as rationals.
-/

/-! ## Python string primitives

Helpers mirroring the Python `str` operations used by the sources:
substring containment (`in`), `str.replace`, `str.lower`/`upper`/
`capitalize`, and `str.strip`. -/

/-- Python `pat in s` on character lists: `pat` occurs as a contiguous
substring of `s`. -/
def listContainsSubstr (s pat : List Char) : Bool :=
  match s with
  | [] => pat.isEmpty
  | _ :: rest => pat.isPrefixOf s || listContainsSubstr rest pat

/-- Python `pat in s` on strings. -/
def strContains (s pat : String) : Bool :=
  listContainsSubstr s.data pat.data

/-- Worker for `pyReplace`: scans the text left to right.  While
`skip > 0` the scanner is inside an already-matched occurrence and
consumes characters without emitting or re-matching; at `skip = 0`,
if `old` is a prefix of the remaining text the replacement is emitted
and the remaining `old.length - 1` matched characters (the head is
consumed by this step) are skipped. -/
def pyReplaceAux (old new : List Char) : Nat → List Char → List Char
  | _, [] => []
  | k + 1, _ :: rest => pyReplaceAux old new k rest
  | 0, c :: rest =>
    if old.isPrefixOf (c :: rest) then
      new ++ pyReplaceAux old new (old.length - 1) rest
    else
      c :: pyReplaceAux old new 0 rest

/-- Python `s.replace(old, new)` on character lists: replace every
non-overlapping occurrence of `old` left to right (the sources only
call it with nonempty `old`; an empty `old` is returned unchanged). -/
def pyReplace (old new s : List Char) : List Char :=
  if old.isEmpty then s else pyReplaceAux old new 0 s

/-- Python `s.lower()` (ASCII behaviour, which covers every pattern in
the sources). -/
def pyLower (s : List Char) : List Char := s.map Char.toLower

/-- Python `s.upper()` (ASCII behaviour). -/
def pyUpper (s : List Char) : List Char := s.map Char.toUpper

/-- Python `s.capitalize()`: first character upper-cased, the rest
lower-cased. -/
def pyCapitalize : List Char → List Char
  | [] => []
  | c :: rest => c.toUpper :: rest.map Char.toLower

/-- Python `s.strip()` on character lists (whitespace at both ends). -/
def pyStrip (s : List Char) : List Char :=
  ((s.dropWhile Char.isWhitespace).reverse.dropWhile Char.isWhitespace).reverse

/-- Python `s.lower()` on strings (ASCII behaviour). -/
def strLower (s : String) : String := String.mk (pyLower s.data)

/-! ## Exceptions

A Python exception is modelled by its class name and its message
(`str(error)`), which is all the error-classification code inspects. -/

structure PyExc where
  typeName : String
  message : String
deriving DecidableEq, Repr

/-! ## Database error handler
(`services/logging_service.py`, class `DatabaseErrorHandler`) -/

/-- Mutable state of a `DatabaseErrorHandler` instance
(`logging_service.py` lines 163-173): current retry count, maximum
retries (default 3) and base delay in seconds (default 1.0, modelled
as a rational). -/
structure DBErrorHandler where
  retry_count : Nat
  max_retries : Nat
  retry_delay : ℚ
deriving DecidableEq, Repr

namespace DBErrorHandler

/-- `DatabaseErrorHandler._is_recoverable_error` (lines 227-256):
recoverable iff the exception class name is one of four known
transient classes, or the lower-cased message contains one of five
indicator substrings. -/
def is_recoverable_error (e : PyExc) : Bool :=
  (["OperationalError", "DisconnectionError", "TimeoutError",
    "DatabaseError"].contains e.typeName)
  || (["connection", "timeout", "network", "temporary", "retry"].any
        fun ind => strContains (strLower e.message) ind)

/-- `DatabaseErrorHandler._is_connection_error` (lines 258-268):
timeout messages are excluded, then seven connection indicators are
searched in the lower-cased message. -/
def is_connection_error (e : PyExc) : Bool :=
  let s := strLower e.message
  if strContains s "timeout" || strContains s "time out" then false
  else
    ["connection", "connect", "network", "host", "server",
     "unreachable", "refused"].any fun ind => strContains s ind

/-- `DatabaseErrorHandler._is_timeout_error` (lines 270-273). -/
def is_timeout_error (e : PyExc) : Bool :=
  let s := strLower e.message
  strContains s "timeout" || strContains s "time out"

/-- `DatabaseErrorHandler._is_constraint_error` (lines 275-282). -/
def is_constraint_error (e : PyExc) : Bool :=
  let s := strLower e.message
  ["constraint", "unique", "foreign key", "check constraint",
   "not null", "primary key"].any fun ind => strContains s ind

/-- `DatabaseErrorHandler._is_integrity_error` (lines 284-287). -/
def is_integrity_error (e : PyExc) : Bool :=
  ["IntegrityError", "DataError"].contains e.typeName

/-- The `action_taken` tag computed by
`DatabaseErrorHandler.handle_database_error` (lines 204-223): first
matching category wins. -/
def action_taken (e : PyExc) : String :=
  if is_timeout_error e then "timeout_retry"
  else if is_connection_error e then "connection_retry"
  else if is_constraint_error e then "constraint_violation"
  else if is_integrity_error e then "integrity_violation"
  else "unknown_error"

/-- `DatabaseErrorHandler.should_retry` (lines 289-302). -/
def should_retry (h : DBErrorHandler) (e : PyExc) : Bool :=
  if h.retry_count ≥ h.max_retries then false
  else is_recoverable_error e

/-- `DatabaseErrorHandler.increment_retry` (lines 304-306). -/
def increment_retry (h : DBErrorHandler) : DBErrorHandler :=
  { h with retry_count := h.retry_count + 1 }

/-- `DatabaseErrorHandler.reset_retry_count` (lines 308-310). -/
def reset_retry_count (h : DBErrorHandler) : DBErrorHandler :=
  { h with retry_count := 0 }

end DBErrorHandler

open DBErrorHandler

/-- `database.py`, `execute_with_retry` (lines 118-157).  The database
operation is modelled as a function from the attempt index to an
outcome, so an operation may fail on some attempts and succeed on
others.  The function returns the operation's final outcome, the
handler state after the call (the handler is the process-wide
singleton from `get_db_error_handler`, threaded explicitly), and the
list of back-off delays slept, in order (`retry_delay * retry_count`
after each increment, per lines 150-153). -/
def execute_with_retry {α : Type} (op : Nat → Except PyExc α)
    (h : DBErrorHandler) (attempt : Nat := 0) :
    Except PyExc α × DBErrorHandler × List ℚ :=
  match op attempt with
  | .ok a => (.ok a, h.reset_retry_count, [])
  | .error e =>
    if hr : h.should_retry e then
      let h1 := h.increment_retry
      let d := h.retry_delay * h1.retry_count
      let rest := execute_with_retry op h1 (attempt + 1)
      (rest.1, rest.2.1, d :: rest.2.2)
    else
      (.error e, h, [])
termination_by h.max_retries - h.retry_count
decreasing_by
  simp only [DBErrorHandler.increment_retry]
  have hlt : h.retry_count < h.max_retries := by
    by_contra hge
    simp [DBErrorHandler.should_retry, Nat.le_of_not_lt hge] at hr
  omega

/-- Whenever a call to `execute_with_retry` returns a successful
result, the handler's retry counter has been reset to 0
(`database.py` line 138). -/
theorem ewr_ok_reset {α : Type} (op : Nat → Except PyExc α) (h : DBErrorHandler) (att : Nat) :
    ∀ {a : α} {h' : DBErrorHandler} {ds : List ℚ},
      execute_with_retry op h att = (.ok a, h', ds) → h'.retry_count = 0 := by
  induction h, att using execute_with_retry.induct op with
  | case1 h att a heq =>
    intro a' h' ds hres
    rw [execute_with_retry, heq] at hres
    simp at hres
    simp [← hres.2.1, reset_retry_count]
  | case2 h att e heq hr hh1 =>
    rename_i ih
    intro a' h' ds hres
    rw [execute_with_retry, heq] at hres
    simp only [hr, dite_true, dif_pos] at hres
    rcases hres2 : execute_with_retry op h.increment_retry (att + 1) with ⟨r1, hh, ds1⟩
    rw [hres2] at hres
    simp at hres
    obtain ⟨e1, e2, e3⟩ := hres
    exact e2 ▸ ih (e1 ▸ hres2)
  | case3 h att e heq hr =>
    intro a' h' ds hres
    rw [execute_with_retry, heq] at hres
    simp [hr] at hres

/-- Whenever a call to `execute_with_retry` propagates an exception,
the handler keeps the incremented retry counter (entry value plus
number of retries performed), and the number of retries is bounded by
the remaining budget `max_retries - retry_count`. -/
theorem ewr_error_persist {α : Type} (op : Nat → Except PyExc α) (h : DBErrorHandler) (att : Nat) :
    ∀ {e : PyExc} {h' : DBErrorHandler} {ds : List ℚ},
      execute_with_retry op h att = (.error e, h', ds) →
        h'.retry_count = h.retry_count + ds.length ∧ ds.length ≤ h.max_retries - h.retry_count := by
  induction h, att using execute_with_retry.induct op with
  | case1 h att a heq =>
    intro e' h' ds hres
    rw [execute_with_retry, heq] at hres
    simp at hres
  | case2 h att e heq hr hh1 =>
    rename_i ih
    intro e' h' ds hres
    rw [execute_with_retry, heq] at hres
    simp only [hr, dite_true, dif_pos] at hres
    rcases hres2 : execute_with_retry op h.increment_retry (att + 1) with ⟨r1, hh, ds1⟩
    rw [hres2] at hres
    simp at hres
    obtain ⟨e1, e2, e3⟩ := hres
    have hcount : h.retry_count < h.max_retries := by
      by_contra hge
      simp [should_retry, Nat.le_of_not_lt hge] at hr
    have := ih (e1 ▸ hres2)
    simp only [show hh1 = h.increment_retry from rfl, increment_retry] at this
    subst e2 e3
    simp [List.length_cons]
    omega
  | case3 h att e heq hr =>
    intro e' h' ds hres
    rw [execute_with_retry, heq] at hres
    simp only [dif_neg hr] at hres
    simp at hres
    obtain ⟨e1, e2, e3⟩ := hres
    subst e2 e3
    simp

/-- The number of back-off sleeps performed by any call to
`execute_with_retry` is bounded by the handler's remaining retry
budget at entry. -/
theorem ewr_delays_bound {α : Type} (op : Nat → Except PyExc α) (h : DBErrorHandler) (att : Nat) :
    (execute_with_retry op h att).2.2.length ≤ h.max_retries - h.retry_count := by
  induction h, att using execute_with_retry.induct op with
  | case1 h att a heq =>
    rw [execute_with_retry, heq]
    simp
  | case2 h att e heq hr hh1 =>
    rename_i ih
    rw [execute_with_retry, heq]
    simp only [hr, dite_true, dif_pos]
    have hcount : h.retry_count < h.max_retries := by
      by_contra hge
      simp [should_retry, Nat.le_of_not_lt hge] at hr
    simp only [show hh1 = h.increment_retry from rfl, increment_retry] at ih
    simp only [List.length_cons]
    simp only [increment_retry] at ih ⊢
    omega
  | case3 h att e heq hr =>
    rw [execute_with_retry, heq]
    simp only [dif_neg hr]
    simp

/-- C1 (counterexample): the exception with class `Exception` and
message `"host unreachable"` is classified `connection_retry` by
`handle_database_error`, yet a store operation that always raises it,
run by `execute_with_retry` with a fresh handler (`retry_count = 0`,
`max_retries = 3`, `base_delay = 1`), is executed exactly once: the
exception propagates immediately with an empty list of sleep delays,
because `should_retry` consults `_is_recoverable_error`, whose
indicator list does not contain `"host"` or `"unreachable"`.  This
refutes the claim that every connection-classified exception is
retried `max_retries` times with increasing delays. -/
theorem c1_counterexample :
    action_taken ⟨"Exception", "host unreachable"⟩ = "connection_retry"
    ∧ execute_with_retry
        (fun _ => (.error ⟨"Exception", "host unreachable"⟩ : Except PyExc Nat)) ⟨0, 3, 1⟩ 0
      = (.error ⟨"Exception", "host unreachable"⟩, ⟨0, 3, 1⟩, []) := by
  constructor
  · decide
  · simp +decide [execute_with_retry, should_retry]

/-- C1 (amended): with a fresh handler (`retry_count = 0`,
`max_retries = 3`, base delay `d > 0`): (a) an operation that on every
attempt raises a connection-classified exception that is also
recoverable per `_is_recoverable_error` is retried exactly 3 times
with strictly increasing sleep delays `d*1, d*2, d*3` and then the
exception propagates; (b) a constraint-violation-classified exception
that is not recoverable per `_is_recoverable_error` propagates on the
first occurrence with no retry and no sleep; (c) after any call whose
operation succeeds, the handler's `retry_count` equals 0. -/
theorem c1_retry_classification_amended {α : Type} (d : ℚ) (hd : 0 < d) (e e2 : PyExc)
    (hconn : action_taken e = "connection_retry") (hrec : is_recoverable_error e = true)
    (hcon2 : action_taken e2 = "constraint_violation") (hnrec : is_recoverable_error e2 = false)
    (op : Nat → Except PyExc α) :
    (execute_with_retry (fun _ => (.error e : Except PyExc α)) ⟨0, 3, d⟩ 0
        = (.error e, ⟨3, 3, d⟩, [d * 1, d * 2, d * 3])
      ∧ d * 1 < d * 2 ∧ d * 2 < d * 3)
    ∧ execute_with_retry (fun _ => (.error e2 : Except PyExc α)) ⟨0, 3, d⟩ 0
        = (.error e2, ⟨0, 3, d⟩, [])
    ∧ (∀ (a : α) (h' : DBErrorHandler) (ds : List ℚ),
        execute_with_retry op ⟨0, 3, d⟩ 0 = (.ok a, h', ds) → h'.retry_count = 0) := by
  refine ⟨⟨?_, ?_, ?_⟩, ?_, ?_⟩
  · simp +decide [execute_with_retry, should_retry, hrec, increment_retry]
  · nlinarith
  · nlinarith
  · simp +decide [execute_with_retry, should_retry, hnrec]
  · intro a h' ds hres
    exact ewr_ok_reset op ⟨0, 3, d⟩ 0 hres

/-- C1 (witness): the amended theorem instantiated at base delay 1,
the always-failing connection error `"connection refused"`, the
non-recoverable constraint error `"unique constraint failed"`, and an
operation succeeding immediately. -/
theorem c1_retry_classification_witness :
    (execute_with_retry
        (fun _ => (.error ⟨"Exception", "connection refused"⟩ : Except PyExc Nat)) ⟨0, 3, 1⟩ 0
        = (.error ⟨"Exception", "connection refused"⟩, ⟨3, 3, 1⟩, [1 * 1, 1 * 2, 1 * 3])
      ∧ (1 : ℚ) * 1 < 1 * 2 ∧ (1 : ℚ) * 2 < 1 * 3)
    ∧ execute_with_retry
        (fun _ => (.error ⟨"Exception", "unique constraint failed"⟩ : Except PyExc Nat)) ⟨0, 3, 1⟩ 0
        = (.error ⟨"Exception", "unique constraint failed"⟩, ⟨0, 3, 1⟩, [])
    ∧ (∀ (a : Nat) (h' : DBErrorHandler) (ds : List ℚ),
        execute_with_retry (fun _ => (.ok 0 : Except PyExc Nat)) ⟨0, 3, 1⟩ 0 = (.ok a, h', ds) →
          h'.retry_count = 0) :=
  c1_retry_classification_amended 1 (by norm_num)
    ⟨"Exception", "connection refused"⟩ ⟨"Exception", "unique constraint failed"⟩
    (by decide) (by decide) (by decide) (by decide) (fun _ => (.ok 0 : Except PyExc Nat))

/-- C9 (counterexample): the retry counter is not per-invocation
state.  The handler returned by `get_db_error_handler` is a
process-wide singleton, and `execute_with_retry` never resets the
counter at entry: a first call whose operation keeps raising the
recoverable error `"connection refused"` performs 3 retries and leaves
`retry_count = 3`; a second, identical call through the handler state
left behind performs 0 retries.  The number of retries of one call
therefore depends on the outcome of the previous call. -/
theorem c9_counterexample :
    (execute_with_retry
        (fun _ => (.error ⟨"Exception", "connection refused"⟩ : Except PyExc Nat)) ⟨0, 3, 1⟩ 0).2.2.length = 3
    ∧ (execute_with_retry
        (fun _ => (.error ⟨"Exception", "connection refused"⟩ : Except PyExc Nat))
        (execute_with_retry
          (fun _ => (.error ⟨"Exception", "connection refused"⟩ : Except PyExc Nat)) ⟨0, 3, 1⟩ 0).2.1
        0).2.2.length = 0 := by
  constructor
  · simp +decide [execute_with_retry, should_retry, increment_retry]
  · simp +decide [execute_with_retry, should_retry, increment_retry]

/-- C9 (amended): the retry counter lives in the process-wide handler
threaded through `execute_with_retry` calls.  Within one call it is
reset to 0 if the operation ends up succeeding; if the call propagates
an exception the counter instead persists as its entry value plus the
number of retries performed; and the number of retries in any call is
bounded by `max_retries - retry_count` at entry (so the loop
terminates, but a call entered with a nonzero counter left by a
previously failed call has a smaller retry budget). -/
theorem c9_retry_counter_amended {α : Type} (op : Nat → Except PyExc α) (h : DBErrorHandler)
    (r : Except PyExc α) (h' : DBErrorHandler) (ds : List ℚ)
    (hres : execute_with_retry op h 0 = (r, h', ds)) :
    ((∃ a, r = .ok a) → h'.retry_count = 0)
    ∧ ((∃ e, r = .error e) → h'.retry_count = h.retry_count + ds.length)
    ∧ ds.length ≤ h.max_retries - h.retry_count := by
  refine ⟨?_, ?_, ?_⟩
  · rintro ⟨a, rfl⟩
    exact ewr_ok_reset op h 0 hres
  · rintro ⟨e, rfl⟩
    exact (ewr_error_persist op h 0 hres).1
  · have := ewr_delays_bound op h 0
    rw [hres] at this
    exact this

/-- C9 (witness): the amended theorem instantiated at an operation
that succeeds immediately with a fresh handler. -/
theorem c9_retry_counter_witness :
    ((∃ a, (.ok 0 : Except PyExc Nat) = .ok a) → (⟨0, 3, 1⟩ : DBErrorHandler).retry_count = 0)
    ∧ ((∃ e, (.ok 0 : Except PyExc Nat) = .error e) →
        (⟨0, 3, 1⟩ : DBErrorHandler).retry_count = (⟨0, 3, 1⟩ : DBErrorHandler).retry_count
          + ([] : List ℚ).length)
    ∧ ([] : List ℚ).length ≤ (⟨0, 3, 1⟩ : DBErrorHandler).max_retries
        - (⟨0, 3, 1⟩ : DBErrorHandler).retry_count :=
  c9_retry_counter_amended (fun _ => (.ok 0 : Except PyExc Nat)) ⟨0, 3, 1⟩
    (.ok 0) ⟨0, 3, 1⟩ []
    (by simp +decide [execute_with_retry, reset_retry_count])

/-! ## Encryption service
(`services/encryption_service.py`, class `EncryptionService`) -/

/-- The slicing loop of `mask_card_number` (line 159):
`[masked[i:i+4] for i in range(0, len(masked), 4)]` — the masked
string cut into blocks of 4 characters, the last block possibly
shorter. -/
def chunks4 : List Char → List (List Char)
  | [] => []
  | [a] => [[a]]
  | [a, b] => [[a, b]]
  | [a, b, c] => [[a, b, c]]
  | a :: b :: c :: d :: rest => [a, b, c, d] :: chunks4 rest

/-- Python `' '.join(blocks)` (line 159). -/
def joinSpace : List (List Char) → List Char
  | [] => []
  | [x] => x
  | x :: xs => x ++ ' ' :: joinSpace xs

/-- `EncryptionService.mask_card_number` (lines 132-165).  The
decryption routine `decrypt_card_number` performs authenticated
decryption through the external `cryptography` library and is passed
in as a fallible black box `dec`; every other step of the source is
total, so the `try`/`except` of lines 142-165 catches exactly the
decryption failures. -/
def mask_card_number (dec : List Char → Except PyExc (List Char))
    (card_number : List Char) : List Char :=
  match (if card_number.length > 20 then dec card_number else .ok card_number) with
  | .error _ => "**** **** **** ****".data
  | .ok decrypted =>
    let clean_number := decrypted.filter Char.isDigit
    if clean_number.length < 4 then
      List.replicate clean_number.length '*'
    else
      let masked := List.replicate (clean_number.length - 4) '*'
        ++ clean_number.drop (clean_number.length - 4)
      joinSpace (chunks4 masked)

/-- The denylist of `EncryptionService.sanitize_input`
(lines 181-189). -/
def dangerous_patterns : List (List Char) :=
  ["<script".data, "</script>".data,
   "javascript:".data, "vbscript:".data,
   "onload=".data, "onerror=".data, "onclick=".data,
   "eval(".data, "exec(".data,
   "DROP TABLE".data, "DELETE FROM".data, "INSERT INTO".data, "UPDATE SET".data,
   "--".data, "/*".data, "*/".data,
   "UNION SELECT".data, "OR 1=1".data, "AND 1=1".data]

/-- The pattern-removal loop of `sanitize_input` (lines 193-197): for
each pattern, in order, remove its lower-case, then upper-case, then
capitalized variant. -/
def removeDangerous (s : List Char) : List Char :=
  dangerous_patterns.foldl
    (fun acc pat =>
      pyReplace (pyCapitalize pat) []
        (pyReplace (pyUpper pat) [] (pyReplace (pyLower pat) [] acc)))
    s

/-- The escaping chain of `sanitize_input` (lines 199-204): five
sequential full-string replacements, with `&` replaced last. -/
def escapeSpecials (s : List Char) : List Char :=
  pyReplace ['&'] "&amp;".data
    (pyReplace ['\''] "&#x27;".data
      (pyReplace ['"'] "&quot;".data
        (pyReplace ['>'] "&gt;".data
          (pyReplace ['<'] "&lt;".data s))))

/-- `EncryptionService.sanitize_input` (lines 167-206). -/
def sanitize_input (input_data : List Char) : List Char :=
  if input_data.isEmpty then input_data
  else pyStrip (escapeSpecials (removeDangerous input_data))

/-- The net per-character effect of the escaping chain: the entities
produced for `<ʼ >ʼ "ʼ 'ʼ` each begin with `&`, which the final
`&`-replacement escapes again. -/
def escChar (c : Char) : List Char :=
  if c = '<' then "&amp;lt;".data
  else if c = '>' then "&amp;gt;".data
  else if c = '"' then "&amp;quot;".data
  else if c = '\'' then "&amp;#x27;".data
  else if c = '&' then "&amp;".data
  else [c]

/-- Length of a base64 encoding (with `=` padding) of `n` bytes. -/
def b64len (n : Nat) : Nat := 4 * ((n + 2) / 3)

/-- Modelled from the public Fernet specification of the external
`cryptography` library (not part of this repository):
`Fernet.encrypt` produces a base64url-encoded token of 1 version byte,
8 timestamp bytes, 16 IV bytes, the AES-128-CBC ciphertext with PKCS7
padding (`16 * (n / 16 + 1)` bytes for an `n`-byte plaintext) and a
32-byte HMAC. -/
def fernet_token_len (n : Nat) : Nat := b64len (57 + 16 * (n / 16 + 1))

/-- Output length of `EncryptionService.encrypt` (lines 65-83) on a
plaintext of `n` UTF-8 bytes: an empty input is returned unchanged
(lines 75-76); otherwise the Fernet token is base64url-encoded a
second time (line 80). -/
def encrypt_len (n : Nat) : Nat :=
  if n = 0 then 0 else b64len (fernet_token_len n)

/-- A single-character Python `replace` is a per-character map:
each occurrence of `c` becomes `rep`, every other character is kept. -/
theorem pyReplace_single (c : Char) (rep : List Char) (s : List Char) :
    pyReplace [c] rep s = s.flatMap (fun x => if x = c then rep else [x]) := by
  induction s with
  | nil => rfl
  | cons x rest ih =>
    have ih' : pyReplaceAux [c] rep 0 rest
        = rest.flatMap (fun x => if x = c then rep else [x]) := by
      simpa [pyReplace] using ih
    simp only [pyReplace, List.isEmpty, Bool.false_eq_true, if_false, List.flatMap_cons]
    simp only [pyReplaceAux, List.isPrefixOf, Bool.and_true]
    by_cases hx : x = c
    · subst hx
      simp [ih']
    · have hbeq : (c == x) = false := beq_eq_false_iff_ne.mpr fun h => hx h.symm
      simp [hbeq, if_neg hx, ih']

/-- The five sequential escape replacements of `sanitize_input`
(lines 199-204) amount to one left-to-right pass applying `escChar`
to each character: because `&` is replaced last, the `&` introduced
by the four earlier entity substitutions is escaped again. -/
theorem escapeSpecials_flatMap (s : List Char) : escapeSpecials s = s.flatMap escChar := by
  simp only [escapeSpecials, pyReplace_single]
  rw [List.flatMap_assoc, List.flatMap_assoc, List.flatMap_assoc, List.flatMap_assoc]
  apply List.flatMap_congr
  intro c _
  by_cases h1 : c = '<'
  · subst h1; decide
  by_cases h2 : c = '>'
  · subst h2; decide
  by_cases h3 : c = '"'
  · subst h3; decide
  by_cases h4 : c = '\''
  · subst h4; decide
  by_cases h5 : c = '&'
  · subst h5; decide
  simp [h1, h2, h3, h4, h5, escChar]

/-- C5 (counterexample): `sanitize_input` neither removes mixed-case
denylist occurrences nor maps `<` to the single entity `&lt;`.  The
input `"<sCrIpT"` — a mixed-case variant of the denylist entry
`'<script'` — survives pattern removal entirely (only the lower-case,
upper-case and capitalized variants are replaced), and the leading `<`
is escaped to `&amp;lt;` because the final `&`-replacement re-escapes
the `&` of `&lt;`; in particular `sanitize_input "<"` is `"&amp;lt;"`,
not `"&lt;"`. -/
theorem c5_counterexample :
    sanitize_input "<sCrIpT".data = "&amp;lt;sCrIpT".data
    ∧ listContainsSubstr (sanitize_input "<sCrIpT".data) "sCrIpT".data = true
    ∧ sanitize_input "<".data = "&amp;lt;".data
    ∧ sanitize_input "<".data ≠ "&lt;".data := by
  refine ⟨by decide, by decide, by decide, by decide⟩

/-- C5 (amended): `sanitize_input` removes, for each denylist
pattern in order, all occurrences of its lower-case, upper-case and
capitalized variants (mixed-case variants can survive); it then
HTML-escapes the remaining text in an order where `&` is replaced
last, so each special character is mapped per `escChar` (`<` to
`&amp;lt;`, `>` to `&amp;gt;`, `"` to `&amp;quot;`, `'` to
`&amp;#x27;`, `&` to `&amp;`), and finally strips surrounding
whitespace; an empty input is returned unchanged.  In particular
every denylist pattern given exactly in one of the three handled case
variants is removed completely. -/
theorem c5_sanitize_amended :
    (∀ s : List Char, sanitize_input s
        = if s.isEmpty then s else pyStrip ((removeDangerous s).flatMap escChar))
    ∧ (∀ pat ∈ dangerous_patterns,
        sanitize_input (pyLower pat) = [] ∧ sanitize_input (pyUpper pat) = []
          ∧ sanitize_input (pyCapitalize pat) = []) := by
  constructor
  · intro s
    simp only [sanitize_input, escapeSpecials_flatMap]
  · decide

/-- C5 (witness): the amended characterization evaluated at the
concrete input `"a<b"` and at the first denylist pattern. -/
theorem c5_sanitize_witness :
    sanitize_input "a<b".data
      = (if "a<b".data.isEmpty then "a<b".data
         else pyStrip ((removeDangerous "a<b".data).flatMap escChar))
    ∧ ("<script".data ∈ dangerous_patterns
        ∧ (sanitize_input (pyLower "<script".data) = []
          ∧ sanitize_input (pyUpper "<script".data) = []
          ∧ sanitize_input (pyCapitalize "<script".data) = [])) :=
  ⟨c5_sanitize_amended.1 "a<b".data,
   by decide,
   c5_sanitize_amended.2 "<script".data (by decide)⟩

/-- A list of length 4 is a literal four-element list. -/
theorem exists_four_of_length {l : List Char} (h : l.length = 4) :
    ∃ a b c d, l = [a, b, c, d] := by
  rcases l with _ | ⟨a, l⟩
  · simp at h
  rcases l with _ | ⟨b, l⟩
  · simp at h
  rcases l with _ | ⟨c, l⟩
  · simp at h
  rcases l with _ | ⟨d, l⟩
  · simp at h
  rcases l with _ | ⟨e, l⟩
  · exact ⟨a, b, c, d, rfl⟩
  · simp at h

/-- C6 (confirmed): for any 16-digit plaintext card number `D`
(length 16 ≤ 20, so the ciphertext heuristic does not fire),
`mask_card_number` returns exactly `"**** **** **** " ++ last-4`, a
19-character string whose characters are only `*`, spaces, and the
last 4 digits of `D`; and for any input longer than 20 characters
whose decryption fails, it returns the fully masked placeholder
`"**** **** **** ****"` instead of propagating the failure. -/
theorem c6_mask_card_number (dec : List Char → Except PyExc (List Char)) :
    (∀ D : List Char, D.length = 16 → (∀ c ∈ D, c.isDigit = true) →
      mask_card_number dec D = "**** **** **** ".data ++ D.drop 12
      ∧ (mask_card_number dec D).length = 19
      ∧ ∀ c ∈ mask_card_number dec D, c = '*' ∨ c = ' ' ∨ c ∈ D.drop 12)
    ∧ (∀ (input : List Char) (e : PyExc), input.length > 20 → dec input = .error e →
        mask_card_number dec input = "**** **** **** ****".data) := by
  constructor
  · intro D hlen hdig
    have hfil : D.filter Char.isDigit = D := List.filter_eq_self.mpr hdig
    have hd4 : (D.drop 12).length = 4 := by simp [hlen]
    obtain ⟨a, b, c, d, hD⟩ := exists_four_of_length hd4
    have heq : mask_card_number dec D = "**** **** **** ".data ++ D.drop 12 := by
      simp only [mask_card_number, hlen]
      norm_num
      simp only [hfil, hlen]
      norm_num
      rw [hD]
      rfl
    refine ⟨heq, by rw [heq, hD]; rfl, ?_⟩
    intro x hx
    rw [heq, List.mem_append] at hx
    rcases hx with hx | hx
    · have hstar : ∀ y ∈ "**** **** **** ".data, y = '*' ∨ y = ' ' := by decide
      rcases hstar x hx with h | h
      · exact Or.inl h
      · exact Or.inr (Or.inl h)
    · exact Or.inr (Or.inr hx)
  · intro input e hlen hdec
    simp [mask_card_number, hlen, hdec]

/-- C6 (witness): the masking theorem evaluated at the 16-digit test
card number `4111111111111111` and at a 21-character input whose
decryption fails. -/
theorem c6_mask_card_number_witness :
    (mask_card_number (fun _ => .error ⟨"ValueError", "Failed to decrypt data"⟩)
        "4111111111111111".data
      = "**** **** **** ".data ++ "4111111111111111".data.drop 12
      ∧ (mask_card_number (fun _ => .error ⟨"ValueError", "Failed to decrypt data"⟩)
          "4111111111111111".data).length = 19
      ∧ ∀ c ∈ mask_card_number (fun _ => .error ⟨"ValueError", "Failed to decrypt data"⟩)
          "4111111111111111".data,
          c = '*' ∨ c = ' ' ∨ c ∈ "4111111111111111".data.drop 12)
    ∧ mask_card_number (fun _ => .error ⟨"ValueError", "Failed to decrypt data"⟩)
        "000000000000000000000".data
      = "**** **** **** ****".data :=
  ⟨(c6_mask_card_number (fun _ => .error ⟨"ValueError", "Failed to decrypt data"⟩)).1
      "4111111111111111".data (by decide) (by decide),
   (c6_mask_card_number (fun _ => .error ⟨"ValueError", "Failed to decrypt data"⟩)).2
      "000000000000000000000".data ⟨"ValueError", "Failed to decrypt data"⟩
      (by decide) rfl⟩

/-- C10 (confirmed): when the digit content of the (possibly
decrypted) value has fewer than 4 digits, `mask_card_number` returns
a string of `*` of exactly that digit count (lines 152-153) — the
empty string when there are no digits — not the generic placeholder
and not an error. -/
theorem c10_mask_short_digits (dec : List Char → Except PyExc (List Char)) :
    (∀ input : List Char, input.length ≤ 20 → (input.filter Char.isDigit).length < 4 →
      mask_card_number dec input
        = List.replicate (input.filter Char.isDigit).length '*')
    ∧ (∀ (input v : List Char), input.length > 20 → dec input = .ok v →
        (v.filter Char.isDigit).length < 4 →
        mask_card_number dec input = List.replicate (v.filter Char.isDigit).length '*')
    ∧ (∀ input : List Char, input.length ≤ 20 → (∀ c ∈ input, c.isDigit = false) →
        mask_card_number dec input = []) := by
  refine ⟨?_, ?_, ?_⟩
  · intro input hlen hfew
    simp only [mask_card_number]
    rw [if_neg (by omega)]
    simp [hfew]
  · intro input v hlen hdec hfew
    simp only [mask_card_number]
    rw [if_pos (by omega), hdec]
    simp [hfew]
  · intro input hlen hnod
    have hfil : input.filter Char.isDigit = [] := by
      rw [List.filter_eq_nil_iff]
      intro a ha
      simp [hnod a ha]
    simp only [mask_card_number]
    rw [if_neg (by omega)]
    simp [hfil]

/-- C10 (witness): the short-digit theorem evaluated at the digitless
input `"no-digits"`, at a long input decrypting to `"12"`, and at the
empty input. -/
theorem c10_mask_short_digits_witness :
    mask_card_number (fun _ => .ok "12".data) "no-digits".data
      = List.replicate ("no-digits".data.filter Char.isDigit).length '*'
    ∧ mask_card_number (fun _ => .ok "12".data) "000000000000000000000".data
      = List.replicate ("12".data.filter Char.isDigit).length '*'
    ∧ mask_card_number (fun _ => .ok "12".data) "no-digits".data = [] :=
  ⟨(c10_mask_short_digits (fun _ => .ok "12".data)).1 "no-digits".data
      (by decide) (by decide),
   (c10_mask_short_digits (fun _ => .ok "12".data)).2.1 "000000000000000000000".data
      "12".data (by decide) rfl (by decide),
   (c10_mask_short_digits (fun _ => .ok "12".data)).2.2 "no-digits".data
      (by decide) (by decide)⟩

/-- C8 (counterexample): `encrypt` returns an empty input unchanged
(lines 75-76), so for the empty plaintext the ciphertext length (0)
is not strictly greater than the plaintext length (0). -/
theorem c8_counterexample : encrypt_len 0 = 0 ∧ ¬ 0 < encrypt_len 0 := by decide

/-- C8 (amended): for every nonempty plaintext (n ≥ 1 UTF-8 bytes)
the ciphertext returned by `encrypt` is strictly longer than the
plaintext — and in fact always longer than 20 characters, which is
what the `len > 20` ciphertext heuristic of `mask_card_number`
relies on. -/
theorem c8_encrypt_length_amended (n : Nat) (hn : 0 < n) :
    n < encrypt_len n ∧ 20 < encrypt_len n := by
  simp only [encrypt_len, fernet_token_len, b64len, if_neg (Nat.pos_iff_ne_zero.mp hn)]
  omega

/-- C8 (witness): the length bound evaluated at a 1-byte plaintext. -/
theorem c8_encrypt_length_witness : 1 < encrypt_len 1 ∧ 20 < encrypt_len 1 :=
  c8_encrypt_length_amended 1 (by decide)

/-! ## Auth service password verification
(`services/auth_service.py`, `AuthService.verify_password`,
lines 30-34) -/

/-- Structural well-formedness of a bcrypt hash as accepted by the
external `bcrypt` library: a `$2a$`/`$2b$`/`$2y$` prefix and the
standard 60-character length. -/
def isWellFormedBcryptHash (h : String) : Bool :=
  ("$2a$".data.isPrefixOf h.data || "$2b$".data.isPrefixOf h.data
    || "$2y$".data.isPrefixOf h.data)
  && h.data.length == 60

/-- Modelled from the external `bcrypt` library's documented
behaviour (the library is not part of this repository):
`bcrypt.checkpw(password, hashed)` returns the comparison outcome for
a well-formed bcrypt hash and raises `ValueError("Invalid salt")`
when `hashed` is not a well-formed bcrypt hash.  The comparison
itself is the key-derivation computation, abstracted as the oracle
`cmp`. -/
def bcrypt_checkpw (cmp : String → String → Bool) (password hashed : String) :
    Except PyExc Bool :=
  if isWellFormedBcryptHash hashed then .ok (cmp password hashed)
  else .error ⟨"ValueError", "Invalid salt"⟩

/-- `AuthService.verify_password` (lines 30-34): a direct call to
`bcrypt.checkpw` with no exception handling, so whatever `checkpw`
raises propagates to the caller. -/
def verify_password (cmp : String → String → Bool) (plain_password hashed_password : String) :
    Except PyExc Bool :=
  bcrypt_checkpw cmp plain_password hashed_password

/-- C4 (counterexample): `verify_password` applied to a hash that is
not a well-formed bcrypt hash raises `ValueError` (propagated from
`bcrypt.checkpw`, which `verify_password` does not guard), instead of
returning `false`. -/
theorem c4_counterexample :
    verify_password (fun _ _ => false) "password" "not-a-hash"
      = .error ⟨"ValueError", "Invalid salt"⟩ := by
  simp [verify_password, bcrypt_checkpw, show isWellFormedBcryptHash "not-a-hash" = false by decide]

/-- C4 (amended): for every password and every well-formed bcrypt
hash, `verify_password` returns the boolean comparison outcome
without raising; for every hash that is not well-formed it raises
`ValueError("Invalid salt")` — `verify_password` contains no
exception handling, so the library error propagates rather than
being converted to `false`. -/
theorem c4_verify_password_amended (cmp : String → String → Bool) (p h : String) :
    (isWellFormedBcryptHash h = true → verify_password cmp p h = .ok (cmp p h))
    ∧ (isWellFormedBcryptHash h = false →
        verify_password cmp p h = .error ⟨"ValueError", "Invalid salt"⟩) := by
  constructor
  · intro hwf
    simp [verify_password, bcrypt_checkpw, hwf]
  · intro hwf
    simp [verify_password, bcrypt_checkpw, hwf]

/-- C4 (witness): the amended theorem evaluated at a structurally
valid 60-character bcrypt hash. -/
theorem c4_verify_password_witness :
    (isWellFormedBcryptHash
        "$2b$12$aaaaaaaaaaaaaaaaaaaaaaaaaaaaaaaaaaaaaaaaaaaaaaaaaaaaa" = true
      → verify_password (fun _ _ => true) "PASSWORD"
          "$2b$12$aaaaaaaaaaaaaaaaaaaaaaaaaaaaaaaaaaaaaaaaaaaaaaaaaaaaa"
        = .ok ((fun _ _ => true) "PASSWORD"
            "$2b$12$aaaaaaaaaaaaaaaaaaaaaaaaaaaaaaaaaaaaaaaaaaaaaaaaaaaaa"))
    ∧ (isWellFormedBcryptHash
        "$2b$12$aaaaaaaaaaaaaaaaaaaaaaaaaaaaaaaaaaaaaaaaaaaaaaaaaaaaa" = false
      → verify_password (fun _ _ => true) "PASSWORD"
          "$2b$12$aaaaaaaaaaaaaaaaaaaaaaaaaaaaaaaaaaaaaaaaaaaaaaaaaaaaa"
        = .error ⟨"ValueError", "Invalid salt"⟩) :=
  c4_verify_password_amended (fun _ _ => true) "PASSWORD"
    "$2b$12$aaaaaaaaaaaaaaaaaaaaaaaaaaaaaaaaaaaaaaaaaaaaaaaaaaaaa"

/-! ## Error handler middleware and exception handlers
(`middleware/error_handler.py`) -/

/-- The request data consulted by the middleware chain: the proxy
headers used for client-IP derivation, URL path, HTTP method, and the
`request.state.correlation_id` attribute (absent until
`ErrorHandlerMiddleware.dispatch` sets it, lines 35-36). -/
structure Request where
  forwarded_for : Option String
  real_ip : Option String
  client_host : Option String
  path : String
  method : String
  state_correlation_id : Option String

/-- Lookup of a response header (first match). -/
def headerGet (hs : List (String × String)) (k : String) : Option String :=
  hs.lookup k

/-- Starlette `response.headers[k] = v`: replace an existing header or
append a new one. -/
def headerSet (hs : List (String × String)) (k v : String) : List (String × String) :=
  if (hs.lookup k).isSome then
    hs.map fun p => if p.1 = k then (k, v) else p
  else hs ++ [(k, v)]

/-- The JSON error envelope `{"error": {...}}` produced by every
error path (`error_handler.py` lines 117-126, 201-210, 243-253;
`rate_limit.py` lines 242-251).  `details` entries are kept as
key/value pairs to preserve the JSON key names of the source. -/
structure ErrorBody where
  code : String
  message : String
  correlation_id : String
  timestamp : String
  path : String
  method : String
  details : Option (List (List (String × String)))
deriving DecidableEq, Repr

/-- A JSONResponse carrying an error envelope. -/
structure ErrorResponse where
  status_code : Nat
  body : ErrorBody
  headers : List (String × String)
deriving DecidableEq, Repr

/-- `ErrorHandlerMiddleware._create_error_response` (lines 94-135).
The timestamp string is produced from the wall clock and passed in as
`ts`.  Pythons `if details:` treats both `None` and an empty list as
absent. -/
def create_error_response (status_code : Nat) (error_code message correlation_id : String)
    (req : Request) (ts : String)
    (details : Option (List (List (String × String)))) : ErrorResponse :=
  { status_code := status_code,
    body := { code := error_code, message := message,
              correlation_id := correlation_id, timestamp := ts,
              path := req.path, method := req.method,
              details := match details with
                | some l => if l.isEmpty then none else some l
                | none => none },
    headers := [("X-Correlation-ID", correlation_id)] }

/-- One entry of `RequestValidationError.errors()`: the location
tuple (entries already rendered by `str`, as in line 236), the
message and the violation type. -/
structure PydanticError where
  loc : List String
  msg : String
  type : String
deriving DecidableEq, Repr

/-- The per-violation formatting of `validation_exception_handler`
(lines 235-241): the location joined with `" -> "`, under the JSON
keys `field`, `message` and `type`. -/
def format_validation_error (err : PydanticError) : List (String × String) :=
  [("field", String.intercalate " -> " err.loc),
   ("message", err.msg), ("type", err.type)]

/-- `validation_exception_handler` (lines 218-259): a 422 response
with code `VALIDATION_ERROR` and one formatted entry per violation.
`genId` models the `str(uuid.uuid4())` fallback drawn when the
request state carries no correlation id (line 221). -/
def validation_exception_handler (req : Request) (genId ts : String)
    (errs : List PydanticError) : ErrorResponse :=
  let correlation_id := req.state_correlation_id.getD genId
  { status_code := 422,
    body := { code := "VALIDATION_ERROR",
              message := "Los datos proporcionados no son válidos",
              correlation_id := correlation_id, timestamp := ts,
              path := req.path, method := req.method,
              details := some (errs.map format_validation_error) },
    headers := [("X-Correlation-ID", correlation_id)] }

/-- `http_exception_handler` (lines 185-216): passthrough of the
exception's status code with code `HTTP_EXCEPTION`. -/
def http_exception_handler (req : Request) (genId ts : String)
    (status_code : Nat) (detail : String) : ErrorResponse :=
  let correlation_id := req.state_correlation_id.getD genId
  { status_code := status_code,
    body := { code := "HTTP_EXCEPTION", message := detail,
              correlation_id := correlation_id, timestamp := ts,
              path := req.path, method := req.method, details := none },
    headers := [("X-Correlation-ID", correlation_id)] }

/-- `RateLimitMiddleware._create_rate_limit_response`
(`rate_limit.py` lines 229-262): a 429 response with code
`RATE_LIMIT_EXCEEDED`, the correlation id read from the request state
(`"unknown"` if unset, line 240), and a `Retry-After: 60` header. -/
def create_rate_limit_response (req : Request) (ts : String) : ErrorResponse :=
  let correlation_id := req.state_correlation_id.getD "unknown"
  { status_code := 429,
    body := { code := "RATE_LIMIT_EXCEEDED",
              message := "Demasiadas solicitudes. Intente nuevamente más tarde.",
              correlation_id := correlation_id, timestamp := ts,
              path := req.path, method := req.method, details := none },
    headers := [("X-Correlation-ID", correlation_id),
                ("Retry-After", "60")] }

/-- `ErrorHandlerMiddleware.dispatch` lines 34-36: the `n`-th request
processed draws a fresh identifier from the UUID source `gen` and
stores it in the request state before any downstream processing
(the rate limiter and the exception handlers run inside this
middleware, per the `add_middleware` order in `main.py`). -/
def assign_correlation_id (gen : Nat → String) (n : Nat) : String := gen n

/-- C3 (confirmed): every error-response constructor in the pipeline
— the database-error / unhandled-exception responses of
`ErrorHandlerMiddleware` (both built by `_create_error_response`),
the HTTP-exception handler, the request-validation handler, and the
rate-limit 429 response — sets the `X-Correlation-ID` header to
exactly the correlation id embedded in the body's error object; and
requests draw their correlation ids from the per-request UUID source,
so distinct requests receive distinct ids whenever the source is
injective (the idealisation of `uuid.uuid4()`). -/
theorem c3_correlation_invariant (gen : Nat → String) (hinj : Function.Injective gen) :
    (∀ (sc : Nat) (ec msg cid : String) (req : Request) (ts : String)
        (det : Option (List (List (String × String)))),
      headerGet (create_error_response sc ec msg cid req ts det).headers "X-Correlation-ID"
        = some (create_error_response sc ec msg cid req ts det).body.correlation_id)
    ∧ (∀ (req : Request) (gid ts : String) (sc : Nat) (detail : String),
      headerGet (http_exception_handler req gid ts sc detail).headers "X-Correlation-ID"
        = some (http_exception_handler req gid ts sc detail).body.correlation_id)
    ∧ (∀ (req : Request) (gid ts : String) (errs : List PydanticError),
      headerGet (validation_exception_handler req gid ts errs).headers "X-Correlation-ID"
        = some (validation_exception_handler req gid ts errs).body.correlation_id)
    ∧ (∀ (req : Request) (ts : String),
      headerGet (create_rate_limit_response req ts).headers "X-Correlation-ID"
        = some (create_rate_limit_response req ts).body.correlation_id)
    ∧ (∀ m n : Nat, m ≠ n →
        assign_correlation_id gen m ≠ assign_correlation_id gen n) := by
  refine ⟨?_, ?_, ?_, ?_, ?_⟩
  · intro sc ec msg cid req ts det
    simp [headerGet, create_error_response, List.lookup]
  · intro req gid ts sc detail
    simp [headerGet, http_exception_handler, List.lookup]
  · intro req gid ts errs
    simp [headerGet, validation_exception_handler, List.lookup]
  · intro req ts
    simp [headerGet, create_rate_limit_response, List.lookup]
  · intro m n hmn heq
    exact hmn (hinj heq)

/-- C3 (witness): the invariant evaluated with the injective id
source `n ↦ "x"*n`, a concrete request, and two distinct request
indices. -/
theorem c3_correlation_invariant_witness :
    headerGet (create_error_response 500 "DATABASE_ERROR" "m"
        "cid-0" ⟨none, none, some "127.0.0.1", "/api/accounts", "GET", some "cid-0"⟩
        "2024-01-01T00:00:00+00:00" none).headers "X-Correlation-ID"
      = some (create_error_response 500 "DATABASE_ERROR" "m"
        "cid-0" ⟨none, none, some "127.0.0.1", "/api/accounts", "GET", some "cid-0"⟩
        "2024-01-01T00:00:00+00:00" none).body.correlation_id
    ∧ headerGet (create_rate_limit_response
        ⟨none, none, some "127.0.0.1", "/api/accounts", "GET", some "cid-0"⟩
        "2024-01-01T00:00:00Z").headers "X-Correlation-ID"
      = some (create_rate_limit_response
        ⟨none, none, some "127.0.0.1", "/api/accounts", "GET", some "cid-0"⟩
        "2024-01-01T00:00:00Z").body.correlation_id
    ∧ assign_correlation_id (fun n => String.mk (List.replicate n 'x')) 0
      ≠ assign_correlation_id (fun n => String.mk (List.replicate n 'x')) 1 := by
  have hinj : Function.Injective (fun n => String.mk (List.replicate n 'x')) := by
    intro a b hab
    have := congrArg (fun s : String => s.data.length) hab
    simpa using this
  exact ⟨(c3_correlation_invariant (fun n => String.mk (List.replicate n 'x')) hinj).1
            500 "DATABASE_ERROR" "m" "cid-0"
            ⟨none, none, some "127.0.0.1", "/api/accounts", "GET", some "cid-0"⟩
            "2024-01-01T00:00:00+00:00" none,
         (c3_correlation_invariant (fun n => String.mk (List.replicate n 'x')) hinj).2.2.2.1
            ⟨none, none, some "127.0.0.1", "/api/accounts", "GET", some "cid-0"⟩
            "2024-01-01T00:00:00Z",
         (c3_correlation_invariant (fun n => String.mk (List.replicate n 'x')) hinj).2.2.2.2
            0 1 (by decide)⟩

/-- C7 (counterexample): for the single violation at location
`("body", "card_number")` the handler emits the entry
`{field: "body -> card_number", message: ..., type: ...}` — the field
path is joined with `" -> "` rather than dotted, and the third key is
`"type"`, not `"kind"` (there is no `kind` key to look up). -/
theorem c7_counterexample :
    (validation_exception_handler
        ⟨none, none, none, "/api/cards", "POST", some "cid-7"⟩ "g" "ts"
        [⟨["body", "card_number"], "field required", "missing"⟩]).body.details
      = some [[("field", "body -> card_number"), ("message", "field required"),
               ("type", "missing")]]
    ∧ headerGet [("field", "body -> card_number"), ("message", "field required"),
        ("type", "missing")] "kind" = none
    ∧ headerGet [("field", "body -> card_number"), ("message", "field required"),
        ("type", "missing")] "field" ≠ some "body.card_number" := by
  refine ⟨rfl, rfl, by decide⟩

/-- C7 (amended): every request-validation failure yields HTTP 422
with error code `VALIDATION_ERROR` and a `details` array containing
one entry per violation of the shape
`{field, message, type}`, where `field` is the violation's input
location joined with `" -> "`. -/
theorem c7_validation_response_amended (req : Request) (gid ts : String)
    (errs : List PydanticError) :
    (validation_exception_handler req gid ts errs).status_code = 422
    ∧ (validation_exception_handler req gid ts errs).body.code = "VALIDATION_ERROR"
    ∧ (validation_exception_handler req gid ts errs).body.details
        = some (errs.map format_validation_error)
    ∧ ∀ e ∈ errs, format_validation_error e
        = [("field", String.intercalate " -> " e.loc),
           ("message", e.msg), ("type", e.type)] := by
  exact ⟨rfl, rfl, rfl, fun e _ => rfl⟩

/-- C7 (witness): the amended statement evaluated at one concrete
violation. -/
theorem c7_validation_response_witness :
    (validation_exception_handler
        ⟨none, none, none, "/api/cards", "POST", some "cid-8"⟩ "g" "ts"
        [⟨["body", "expiry_month"], "value is not a valid integer", "type_error.integer"⟩]).status_code
      = 422
    ∧ (validation_exception_handler
        ⟨none, none, none, "/api/cards", "POST", some "cid-8"⟩ "g" "ts"
        [⟨["body", "expiry_month"], "value is not a valid integer", "type_error.integer"⟩]).body.code
      = "VALIDATION_ERROR"
    ∧ (validation_exception_handler
        ⟨none, none, none, "/api/cards", "POST", some "cid-8"⟩ "g" "ts"
        [⟨["body", "expiry_month"], "value is not a valid integer", "type_error.integer"⟩]).body.details
      = some ([⟨["body", "expiry_month"], "value is not a valid integer",
          "type_error.integer"⟩].map format_validation_error)
    ∧ ∀ e ∈ [(⟨["body", "expiry_month"], "value is not a valid integer",
          "type_error.integer"⟩ : PydanticError)], format_validation_error e
        = [("field", String.intercalate " -> " e.loc),
           ("message", e.msg), ("type", e.type)] :=
  c7_validation_response_amended
    ⟨none, none, none, "/api/cards", "POST", some "cid-8"⟩ "g" "ts"
    [⟨["body", "expiry_month"], "value is not a valid integer", "type_error.integer"⟩]

/-! ## Rate limiting middleware
(`middleware/rate_limit.py`, class `RateLimitMiddleware`) -/

/-- Constructor arguments of `RateLimitMiddleware` (lines 18-40);
production values are 60 / 1000 / 10 / 300 (`main.py` line 36). -/
structure RLConfig where
  calls_per_minute : Nat
  calls_per_hour : Nat
  burst_limit : Nat
  cleanup_interval : ℚ

/-- One of the per-IP timestamp dictionaries
(`defaultdict(deque)`, lines 44-46), modelled as an association list;
a missing key reads as the empty window. -/
abbrev WindowMap : Type := List (String × List ℚ)

/-- Read a window (`defaultdict` read / `.get(key, [])`). -/
def mapGet (m : WindowMap) (k : String) : List ℚ :=
  ((List.lookup k m).getD [])

/-- Write back a window (the source mutates the deque object stored
in the dictionary in place). -/
def mapSet (m : WindowMap) (k : String) (v : List ℚ) : WindowMap :=
  if (List.lookup k m).isSome then
    List.map (fun p => if p.1 = k then (k, v) else p) m
  else m ++ [(k, v)]

/-- The eviction loop
`while w and current_time - w[0] > horizon: w.popleft()`
(lines 126-127, 138-139, 150-151): timestamps are appended in arrival
order, so the front of the deque is the oldest. -/
def evictOlder (now horizon : ℚ) : List ℚ → List ℚ
  | [] => []
  | t :: rest => if now - t > horizon then evictOlder now horizon rest else t :: rest

/-- The middleware's mutable state (lines 44-49). -/
structure RLState where
  minute_requests : WindowMap
  hour_requests : WindowMap
  burst_requests : WindowMap
  last_cleanup : ℚ

/-- `RateLimitMiddleware._get_client_ip` (lines 86-107): first entry
of `X-Forwarded-For` (stripped), else `X-Real-IP`, else the transport
peer address, else `"unknown"`. -/
def get_client_ip (req : Request) : String :=
  match req.forwarded_for with
  | some f => String.mk (pyStrip ((f.splitOn ",").headD "").data)
  | none =>
    match req.real_ip with
    | some r => r
    | none => req.client_host.getD "unknown"

/-- `RateLimitMiddleware._is_sensitive_endpoint` (lines 167-183). -/
def is_sensitive_endpoint (path : String) : Bool :=
  ["/auth/login", "/auth/logout", "/auth/me"].any fun pat => strContains path pat

/-- `RateLimitMiddleware._is_rate_limited` (lines 109-165): evict and
check burst, then minute, then hour windows in order (first violated
check wins and later windows stay untouched), then the stricter
sensitive-endpoint limit `min(10, calls_per_minute // 6)` against the
minute window.  The in-place deque evictions are returned as the
updated state. -/
def is_rate_limited (cfg : RLConfig) (st : RLState) (client_ip path : String) (now : ℚ) :
    Bool × RLState :=
  let bkey := client_ip ++ ":burst"
  let bw := evictOlder now 10 (mapGet st.burst_requests bkey)
  let st1 := { st with burst_requests := mapSet st.burst_requests bkey bw }
  if bw.length ≥ cfg.burst_limit then (true, st1)
  else
    let mkey := client_ip ++ ":minute"
    let mw := evictOlder now 60 (mapGet st1.minute_requests mkey)
    let st2 := { st1 with minute_requests := mapSet st1.minute_requests mkey mw }
    if mw.length ≥ cfg.calls_per_minute then (true, st2)
    else
      let hkey := client_ip ++ ":hour"
      let hw := evictOlder now 3600 (mapGet st2.hour_requests hkey)
      let st3 := { st2 with hour_requests := mapSet st2.hour_requests hkey hw }
      if hw.length ≥ cfg.calls_per_hour then (true, st3)
      else if is_sensitive_endpoint path then
        let auth_limit := min 10 (cfg.calls_per_minute / 6)
        (decide (mw.length ≥ auth_limit), st3)
      else (false, st3)

/-- `RateLimitMiddleware._record_request` (lines 185-196): append the
current timestamp to all three windows. -/
def record_request (st : RLState) (client_ip : String) (now : ℚ) : RLState :=
  { st with
    burst_requests := mapSet st.burst_requests (client_ip ++ ":burst")
      (mapGet st.burst_requests (client_ip ++ ":burst") ++ [now]),
    minute_requests := mapSet st.minute_requests (client_ip ++ ":minute")
      (mapGet st.minute_requests (client_ip ++ ":minute") ++ [now]),
    hour_requests := mapSet st.hour_requests (client_ip ++ ":hour")
      (mapGet st.hour_requests (client_ip ++ ":hour") ++ [now]) }

/-- The per-map sweep of `_cleanup_old_requests` (lines 198-227):
evict stale entries from every window and drop keys whose window
became empty. -/
def cleanupMap (now horizon : ℚ) (m : WindowMap) : WindowMap :=
  List.filter (fun p => !p.2.isEmpty)
    (List.map (fun p => (p.1, evictOlder now horizon p.2)) m)

/-- `RateLimitMiddleware._cleanup_old_requests` (lines 198-227). -/
def cleanup_old_requests (now : ℚ) (st : RLState) : RLState :=
  { minute_requests := cleanupMap now 60 st.minute_requests,
    hour_requests := cleanupMap now 3600 st.hour_requests,
    burst_requests := cleanupMap now 10 st.burst_requests,
    last_cleanup := st.last_cleanup }

/-- A downstream HTTP response (status and headers are all the
middleware touches). -/
structure HttpResponse where
  status : Nat
  headers : List (String × String)

/-- `RateLimitMiddleware._add_rate_limit_headers` (lines 264-288):
remaining quotas computed from the post-recording window lengths
(clamped at 0, which is `Nat` subtraction), and the reset time rounded
up to the next minute boundary. -/
def add_rate_limit_headers (cfg : RLConfig) (st : RLState) (client_ip : String) (now : ℚ)
    (resp : HttpResponse) : HttpResponse :=
  let minute_count := (mapGet st.minute_requests (client_ip ++ ":minute")).length
  let hour_count := (mapGet st.hour_requests (client_ip ++ ":hour")).length
  let remaining_minute := cfg.calls_per_minute - minute_count
  let remaining_hour := cfg.calls_per_hour - hour_count
  let t : Int := Int.floor now
  let reset_time := t + (60 - t % 60)
  let h1 := headerSet resp.headers "X-RateLimit-Limit-Minute" (toString cfg.calls_per_minute)
  let h2 := headerSet h1 "X-RateLimit-Remaining-Minute" (toString remaining_minute)
  let h3 := headerSet h2 "X-RateLimit-Limit-Hour" (toString cfg.calls_per_hour)
  let h4 := headerSet h3 "X-RateLimit-Remaining-Hour" (toString remaining_hour)
  let h5 := headerSet h4 "X-RateLimit-Reset" (toString reset_time)
  { resp with headers := h5 }

/-- Result of `RateLimitMiddleware.dispatch`: either the 429 error
response, or the downstream response with quota headers added. -/
inductive RLOutcome where
  | limited (resp : ErrorResponse)
  | forwarded (resp : HttpResponse)

/-- `RateLimitMiddleware.dispatch` (lines 51-84): opportunistic
periodic cleanup, limit check (with its in-place evictions), then
either the 429 response (and no recording), or recording followed by
the downstream call and the quota headers. -/
def rl_dispatch (cfg : RLConfig) (st : RLState) (req : Request) (now : ℚ) (ts : String)
    (downstream : HttpResponse) : RLOutcome × RLState :=
  let client_ip := get_client_ip req
  let st0 := if now - st.last_cleanup > cfg.cleanup_interval then
      { cleanup_old_requests now st with last_cleanup := now }
    else st
  let res := is_rate_limited cfg st0 client_ip req.path now
  if res.1 then (.limited (create_rate_limit_response req ts), res.2)
  else
    let st2 := record_request res.2 client_ip now
    (.forwarded (add_rate_limit_headers cfg st2 client_ip now downstream), st2)

/-- Eviction leaves a window unchanged when every entry is within the
horizon. -/
theorem evictOlder_of_all (now hz : ℚ) (l : List ℚ) (h : ∀ x ∈ l, now - x ≤ hz) :
    evictOlder now hz l = l := by
  cases l with
  | nil => rfl
  | cons t rest =>
    have ht : now - t ≤ hz := h t (by simp)
    simp [evictOlder, not_lt.mpr ht]

/-- Eviction only removes entries. -/
theorem evictOlder_sublist (now hz : ℚ) (l : List ℚ) :
    (evictOlder now hz l).Sublist l := by
  induction l with
  | nil => simp [evictOlder]
  | cons t rest ih =>
    simp only [evictOlder]
    split
    · exact ih.trans (List.sublist_cons_self t rest)
    · exact List.Sublist.cons₂ t (List.Sublist.refl rest)

/-- Eviction is idempotent (the loop stops at the first entry inside
the horizon). -/
theorem evictOlder_idem (now hz : ℚ) (l : List ℚ) :
    evictOlder now hz (evictOlder now hz l) = evictOlder now hz l := by
  induction l with
  | nil => rfl
  | cons t rest ih =>
    simp only [evictOlder]
    split
    · exact ih
    · rename_i hfresh
      simp only [evictOlder, if_neg hfresh]

/-- `List.lookup` on a cons cell of a `String`-keyed pair list. -/
theorem lookup_cons_pair {β : Type} (pk : String) (pv : β) (k' : String)
    (rest : List (String × β)) :
    List.lookup k' ((pk, pv) :: rest)
      = if k' == pk then some pv else List.lookup k' rest := by
  cases h : k' == pk <;> simp [List.lookup, h]

/-- The overwrite pass of `headerSet` keeps all other keys. -/
theorem lookup_overwrite_ne (hs : List (String × String)) (k v k' : String) (hne : k' ≠ k) :
    List.lookup k' (List.map (fun p => if p.1 = k then (k, v) else p) hs)
      = List.lookup k' hs := by
  have hbeq : (k' == k) = false := beq_eq_false_iff_ne.mpr hne
  induction hs with
  | nil => simp
  | cons p rest ih =>
    rcases p with ⟨pk, pv⟩
    rw [List.map_cons]
    by_cases hp : pk = k
    · subst hp
      rw [if_pos (show (pk, pv).1 = pk from rfl)]
      rw [lookup_cons_pair, lookup_cons_pair, hbeq, ih]
      simp
    · rw [if_neg (show ¬(pk, pv).1 = k from hp)]
      rw [lookup_cons_pair, lookup_cons_pair, ih]

/-- Appending a fresh key does not affect other keys. -/
theorem lookup_append_single_ne (hs : List (String × String)) (k v k' : String)
    (hne : k' ≠ k) :
    List.lookup k' (hs ++ [(k, v)]) = List.lookup k' hs := by
  have hbeq : (k' == k) = false := beq_eq_false_iff_ne.mpr hne
  induction hs with
  | nil => simp [lookup_cons_pair, hbeq]
  | cons p rest ih =>
    rcases p with ⟨pk, pv⟩
    rw [List.cons_append, lookup_cons_pair, lookup_cons_pair, ih]

/-- The overwrite pass of `headerSet` stores the new value. -/
theorem lookup_overwrite_self (hs : List (String × String)) (k v : String)
    (hsome : (List.lookup k hs).isSome) :
    List.lookup k (List.map (fun p => if p.1 = k then (k, v) else p) hs) = some v := by
  induction hs with
  | nil => simp at hsome
  | cons p rest ih =>
    rcases p with ⟨pk, pv⟩
    rw [List.map_cons]
    by_cases hp : pk = k
    · subst hp
      rw [if_pos (show (pk, pv).1 = pk from rfl), lookup_cons_pair]
      simp
    · have hbeq : (k == pk) = false := beq_eq_false_iff_ne.mpr fun h => hp h.symm
      rw [if_neg (show ¬(pk, pv).1 = k from hp), lookup_cons_pair, hbeq]
      simp only [Bool.false_eq_true, if_false]
      apply ih
      rw [lookup_cons_pair, hbeq] at hsome
      simpa using hsome

/-- The append pass of `headerSet` stores the new value. -/
theorem lookup_append_single_self (hs : List (String × String)) (k v : String)
    (hnone : List.lookup k hs = none) :
    List.lookup k (hs ++ [(k, v)]) = some v := by
  induction hs with
  | nil => simp [lookup_cons_pair]
  | cons p rest ih =>
    rcases p with ⟨pk, pv⟩
    rw [lookup_cons_pair] at hnone
    rw [List.cons_append, lookup_cons_pair]
    cases hbeq : (k == pk) with
    | true => rw [hbeq] at hnone; simp at hnone
    | false =>
      rw [hbeq] at hnone
      simp only [Bool.false_eq_true, if_false] at hnone ⊢
      exact ih hnone

/-- A header just set reads back. -/
theorem headerGet_headerSet_self (hs : List (String × String)) (k v : String) :
    headerGet (headerSet hs k v) k = some v := by
  unfold headerGet headerSet
  split
  · rename_i hsome
    exact lookup_overwrite_self hs k v hsome
  · rename_i hnone
    exact lookup_append_single_self hs k v (Option.not_isSome_iff_eq_none.mp hnone)

/-- Setting one header leaves the others readable. -/
theorem headerGet_headerSet_ne (hs : List (String × String)) (k v k' : String)
    (hne : k' ≠ k) :
    headerGet (headerSet hs k v) k' = headerGet hs k' := by
  unfold headerGet headerSet
  split
  · rw [lookup_overwrite_ne hs k v k' hne]
  · rw [lookup_append_single_ne hs k v k' hne]

/-- Evaluation of `_is_rate_limited` under the claim's configuration
(`calls_per_minute = 3`, hour and burst limits not binding) on a state
whose windows for the client's keys hold only timestamps within their
horizons: the verdict is exactly `minute window length ≥ 3`, the burst
window is evicted in place, the minute window is rewritten unchanged,
and the hour window is only touched when the minute check passes
(first violated check short-circuits). -/
theorem is_rate_limited_eval (st : RLState) (ip path : String) (now : ℚ)
    (hpath : is_sensitive_endpoint path = false)
    (M H B : List ℚ)
    (hm : mapGet st.minute_requests (ip ++ ":minute") = M)
    (hh : mapGet st.hour_requests (ip ++ ":hour") = H)
    (hb : mapGet st.burst_requests (ip ++ ":burst") = B)
    (hM : ∀ x ∈ M, now - x ≤ 60) (hH : ∀ x ∈ H, now - x ≤ 3600)
    (hBlen : B.length < 10) (hHlen : H.length < 1000) :
    is_rate_limited ⟨3, 1000, 10, 300⟩ st ip path now
      = (decide (M.length ≥ 3),
         { st with
           burst_requests := mapSet st.burst_requests (ip ++ ":burst") (evictOlder now 10 B),
           minute_requests := mapSet st.minute_requests (ip ++ ":minute") M,
           hour_requests := if M.length ≥ 3 then st.hour_requests
             else mapSet st.hour_requests (ip ++ ":hour") H }) := by
  have hblen2 : (evictOlder now 10 B).length < 10 :=
    lt_of_le_of_lt (List.Sublist.length_le (evictOlder_sublist now 10 B)) hBlen
  simp only [is_rate_limited, hb, hm]
  rw [if_neg (by omega)]
  rw [evictOlder_of_all now 60 M hM]
  by_cases hM3 : M.length ≥ 3
  · rw [if_pos (by omega)]
    simp [hM3]
  · rw [if_neg (by omega)]
    simp only [hh]
    rw [evictOlder_of_all now 3600 H hH]
    rw [if_neg (by omega)]
    rw [hpath]
    simp [hM3]

/-- Reading the single stored key. -/
theorem mapGet_single (k : String) (l : List ℚ) : mapGet [(k, l)] k = l := by
  simp [mapGet, lookup_cons_pair]

/-- Writing into an empty dictionary creates the entry. -/
theorem mapSet_nil (k : String) (v : List ℚ) : mapSet [] k v = [(k, v)] := by
  simp [mapSet, List.lookup]

/-- Overwriting the single stored key. -/
theorem mapSet_single_self (k : String) (l v : List ℚ) :
    mapSet [(k, l)] k v = [(k, v)] := by
  simp [mapSet, lookup_cons_pair]

/-- The periodic sweep on a one-key dictionary: the window is
evicted, and the key is dropped when it becomes empty. -/
theorem cleanupMap_single (now hz : ℚ) (k : String) (l : List ℚ) :
    cleanupMap now hz [(k, l)]
      = if (evictOlder now hz l).isEmpty then [] else [(k, evictOlder now hz l)] := by
  simp only [cleanupMap, List.map_cons, List.map_nil, List.filter]
  cases he : (evictOlder now hz l).isEmpty <;> simp [he]

/-- `_record_request` on a one-key-per-map state appends the
timestamp to all three windows. -/
theorem record_request_single (ip : String) (M H Bx : List ℚ) (lc now : ℚ) :
    record_request ⟨[(ip ++ ":minute", M)], [(ip ++ ":hour", H)], [(ip ++ ":burst", Bx)], lc⟩
        ip now
      = ⟨[(ip ++ ":minute", M ++ [now])], [(ip ++ ":hour", H ++ [now])],
         [(ip ++ ":burst", Bx ++ [now])], lc⟩ := by
  simp [record_request, mapGet_single, mapSet_single_self]

/-- Reading back a window that the sweep either kept or dropped as
empty. -/
theorem mapGet_ifEmpty (b : String) (L : List ℚ) :
    mapGet (if L.isEmpty then [] else [(b, L)]) b = L := by
  split
  · rename_i he
    simp [mapGet, List.lookup, List.isEmpty_iff.mp he]
  · exact mapGet_single _ _

/-- Writing a window back after the sweep either kept or dropped
it. -/
theorem mapSet_ifEmpty (b : String) (L : List ℚ) :
    mapSet (if L.isEmpty then [] else [(b, L)]) b L = [(b, L)] := by
  split
  · exact mapSet_nil b L
  · exact mapSet_single_self b L L

/-- One non-limited request from a single-client state: the verdict
is "forward", the timestamp is appended to all three windows (the
burst window after eviction), and the quota headers are computed from
the post-recording state.  Holds whether or not the periodic cleanup
fires. -/
theorem rl_step_forward (req : Request) (ip : String)
    (hip : get_client_ip req = ip) (hpath : is_sensitive_endpoint req.path = false)
    (M H B : List ℚ) (lc now : ℚ) (ts : String) (ds : HttpResponse)
    (hM : ∀ x ∈ M, now - x ≤ 60) (hH : ∀ x ∈ H, now - x ≤ 3600)
    (hMlen : M.length < 3) (hHlen : H.length < 1000) (hBlen : B.length < 10)
    (hMne : M ≠ []) (hHne : H ≠ []) :
    rl_dispatch ⟨3, 1000, 10, 300⟩
        ⟨[(ip ++ ":minute", M)], [(ip ++ ":hour", H)], [(ip ++ ":burst", B)], lc⟩
        req now ts ds
      = (.forwarded (add_rate_limit_headers ⟨3, 1000, 10, 300⟩
            ⟨[(ip ++ ":minute", M ++ [now])], [(ip ++ ":hour", H ++ [now])],
             [(ip ++ ":burst", evictOlder now 10 B ++ [now])],
             if (300 : ℚ) < now - lc then now else lc⟩ ip now ds),
          ⟨[(ip ++ ":minute", M ++ [now])], [(ip ++ ":hour", H ++ [now])],
           [(ip ++ ":burst", evictOlder now 10 B ++ [now])],
           if (300 : ℚ) < now - lc then now else lc⟩) := by
  have hMev : evictOlder now 60 M = M := evictOlder_of_all now 60 M hM
  have hHev : evictOlder now 3600 H = H := evictOlder_of_all now 3600 H hH
  have hMemp : M.isEmpty = false := by simpa [List.isEmpty_iff] using hMne
  have hHemp : H.isEmpty = false := by simpa [List.isEmpty_iff] using hHne
  have hM3f : ¬ (M.length ≥ 3) := by omega
  have hM3d : decide (M.length ≥ 3) = false := decide_eq_false hM3f
  have hBev : (evictOlder now 10 B).length < 10 :=
    lt_of_le_of_lt (List.Sublist.length_le (evictOlder_sublist now 10 B)) hBlen
  simp only [rl_dispatch, hip]
  by_cases hcl : (300 : ℚ) < now - lc
  · rw [if_pos (show (300 : ℚ) < now - lc from hcl)]
    simp only [cleanup_old_requests, cleanupMap_single, hMev, hHev, hMemp, hHemp,
      Bool.false_eq_true, if_false]
    rw [is_rate_limited_eval _ ip req.path now hpath M H (evictOlder now 10 B)
      (mapGet_single _ _) (mapGet_single _ _) (mapGet_ifEmpty _ _) hM hH hBev hHlen]
    simp only [hM3d, Bool.false_eq_true, if_false, if_neg hM3f,
      mapSet_single_self, evictOlder_idem, mapSet_ifEmpty]
    rw [record_request_single]
    simp [hcl]
  · rw [if_neg (show ¬ (300 : ℚ) < now - lc from hcl)]
    rw [is_rate_limited_eval _ ip req.path now hpath M H B
      (mapGet_single _ _) (mapGet_single _ _) (mapGet_single _ _) hM hH hBlen hHlen]
    simp only [hM3d, Bool.false_eq_true, if_false, if_neg hM3f, mapSet_single_self]
    rw [record_request_single]
    simp [hcl]

/-- One rate-limited request from a single-client state with a full
minute window: the verdict is the 429 response, the minute and hour
windows are unchanged, and no timestamp is recorded anywhere (the
burst window only shrinks by eviction). -/
theorem rl_step_limited (req : Request) (ip : String)
    (hip : get_client_ip req = ip) (hpath : is_sensitive_endpoint req.path = false)
    (M H B : List ℚ) (lc now : ℚ) (ts : String) (ds : HttpResponse)
    (hM : ∀ x ∈ M, now - x ≤ 60) (hH : ∀ x ∈ H, now - x ≤ 3600)
    (hMlen : M.length ≥ 3) (hHlen : H.length < 1000) (hBlen : B.length < 10)
    (hMne : M ≠ []) (hHne : H ≠ []) :
    rl_dispatch ⟨3, 1000, 10, 300⟩
        ⟨[(ip ++ ":minute", M)], [(ip ++ ":hour", H)], [(ip ++ ":burst", B)], lc⟩
        req now ts ds
      = (.limited (create_rate_limit_response req ts),
          ⟨[(ip ++ ":minute", M)], [(ip ++ ":hour", H)],
           [(ip ++ ":burst", evictOlder now 10 B)],
           if (300 : ℚ) < now - lc then now else lc⟩) := by
  have hMev : evictOlder now 60 M = M := evictOlder_of_all now 60 M hM
  have hHev : evictOlder now 3600 H = H := evictOlder_of_all now 3600 H hH
  have hMemp : M.isEmpty = false := by simpa [List.isEmpty_iff] using hMne
  have hHemp : H.isEmpty = false := by simpa [List.isEmpty_iff] using hHne
  have hM3d : decide (M.length ≥ 3) = true := decide_eq_true hMlen
  have hBev : (evictOlder now 10 B).length < 10 :=
    lt_of_le_of_lt (List.Sublist.length_le (evictOlder_sublist now 10 B)) hBlen
  simp only [rl_dispatch, hip]
  by_cases hcl : (300 : ℚ) < now - lc
  · rw [if_pos (show (300 : ℚ) < now - lc from hcl)]
    simp only [cleanup_old_requests, cleanupMap_single, hMev, hHev, hMemp, hHemp,
      Bool.false_eq_true, if_false]
    rw [is_rate_limited_eval _ ip req.path now hpath M H (evictOlder now 10 B)
      (mapGet_single _ _) (mapGet_single _ _) (mapGet_ifEmpty _ _) hM hH hBev hHlen]
    simp only [hM3d, if_true, if_pos hMlen, mapSet_single_self, evictOlder_idem,
      mapSet_ifEmpty]
    simp [hcl]
  · rw [if_neg (show ¬ (300 : ℚ) < now - lc from hcl)]
    rw [is_rate_limited_eval _ ip req.path now hpath M H B
      (mapGet_single _ _) (mapGet_single _ _) (mapGet_single _ _) hM hH hBlen hHlen]
    simp only [hM3d, if_true, if_pos hMlen, mapSet_single_self]
    simp [hcl]

/-- Reading any key of the empty dictionary. -/
theorem mapGet_nil (k : String) : mapGet [] k = [] := rfl

/-- The first request ever seen: all three windows are created
lazily and hold exactly the request's timestamp. -/
theorem rl_step_first (req : Request) (ip : String)
    (hip : get_client_ip req = ip) (hpath : is_sensitive_endpoint req.path = false)
    (c t0 : ℚ) (ts : String) (ds : HttpResponse) :
    rl_dispatch ⟨3, 1000, 10, 300⟩ ⟨[], [], [], c⟩ req t0 ts ds
      = (.forwarded (add_rate_limit_headers ⟨3, 1000, 10, 300⟩
            ⟨[(ip ++ ":minute", [t0])], [(ip ++ ":hour", [t0])], [(ip ++ ":burst", [t0])],
             if (300 : ℚ) < t0 - c then t0 else c⟩ ip t0 ds),
          ⟨[(ip ++ ":minute", [t0])], [(ip ++ ":hour", [t0])], [(ip ++ ":burst", [t0])],
           if (300 : ℚ) < t0 - c then t0 else c⟩) := by
  simp only [rl_dispatch, hip]
  by_cases hcl : (300 : ℚ) < t0 - c
  · rw [if_pos (show (300 : ℚ) < t0 - c from hcl)]
    simp only [cleanup_old_requests, cleanupMap, List.map_nil, List.filter_nil]
    rw [is_rate_limited_eval _ ip req.path t0 hpath [] [] []
      (mapGet_nil _) (mapGet_nil _) (mapGet_nil _)
      (by simp) (by simp) (by simp) (by simp)]
    simp only [evictOlder, mapSet_nil]
    rw [show (decide (List.length ([] : List ℚ) ≥ 3)) = false by decide]
    simp only [Bool.false_eq_true, if_false]
    rw [if_neg (by simp)]
    rw [record_request_single]
    simp [hcl]
  · rw [if_neg (show ¬ (300 : ℚ) < t0 - c from hcl)]
    rw [is_rate_limited_eval _ ip req.path t0 hpath [] [] []
      (mapGet_nil _) (mapGet_nil _) (mapGet_nil _)
      (by simp) (by simp) (by simp) (by simp)]
    simp only [evictOlder, mapSet_nil]
    rw [show (decide (List.length ([] : List ℚ) ≥ 3)) = false by decide]
    simp only [Bool.false_eq_true, if_false]
    rw [if_neg (by simp)]
    rw [record_request_single]
    simp [hcl]

/-- `_add_rate_limit_headers` does not change the downstream
status. -/
theorem add_headers_status (cfg : RLConfig) (st : RLState) (ip : String) (now : ℚ)
    (resp : HttpResponse) :
    (add_rate_limit_headers cfg st ip now resp).status = resp.status := rfl

/-- The `X-RateLimit-Remaining-Minute` header reports
`calls_per_minute` minus the recorded minute-window length, clamped at
0 (`Nat` subtraction). -/
theorem add_headers_remaining_minute (cfg : RLConfig) (st : RLState) (ip : String)
    (now : ℚ) (resp : HttpResponse) :
    headerGet (add_rate_limit_headers cfg st ip now resp).headers
        "X-RateLimit-Remaining-Minute"
      = some (toString (cfg.calls_per_minute
          - (mapGet st.minute_requests (ip ++ ":minute")).length)) := by
  simp only [add_rate_limit_headers]
  rw [headerGet_headerSet_ne _ _ _ _ (by decide)]
  rw [headerGet_headerSet_ne _ _ _ _ (by decide)]
  rw [headerGet_headerSet_ne _ _ _ _ (by decide)]
  rw [headerGet_headerSet_self]

/-- The 429 response carries status 429 and `Retry-After: 60`. -/
theorem rate_limit_response_fields (req : Request) (ts : String) :
    (create_rate_limit_response req ts).status_code = 429
    ∧ headerGet (create_rate_limit_response req ts).headers "Retry-After" = some "60" := by
  refine ⟨rfl, ?_⟩
  simp only [create_rate_limit_response, headerGet]
  rw [lookup_cons_pair, lookup_cons_pair]
  simp

/-- C2 (confirmed): with `calls_per_minute = 3` (hour limit 1000 and
burst limit 10 not binding), 5 requests within one minute from the
same client on a non-sensitive path, starting from empty window
state: the first 3 are forwarded downstream (status 200), the last 2
are answered 429 with `Retry-After: 60`, the third response carries
`X-RateLimit-Remaining-Minute: 0`, and no timestamp is appended to
any window for the rate-limited requests (the minute and hour windows
stay exactly `[t0, t1, t2]` and the burst windows only shrink by
eviction). -/
theorem c2_rate_limiter (req : Request) (ip : String)
    (hip : get_client_ip req = ip) (hpath : is_sensitive_endpoint req.path = false)
    (t0 t1 t2 t3 t4 c : ℚ) (ts1 ts2 ts3 ts4 ts5 : String) (ds : HttpResponse)
    (hds : ds.status = 200)
    (h01 : t0 ≤ t1) (h12 : t1 ≤ t2) (h23 : t2 ≤ t3) (h34 : t3 ≤ t4)
    (hspan : t4 ≤ t0 + 60)
    (r1 r2 r3 r4 r5 : RLOutcome) (s1 s2 s3 s4 s5 : RLState)
    (hrun1 : rl_dispatch ⟨3, 1000, 10, 300⟩ ⟨[], [], [], c⟩ req t0 ts1 ds = (r1, s1))
    (hrun2 : rl_dispatch ⟨3, 1000, 10, 300⟩ s1 req t1 ts2 ds = (r2, s2))
    (hrun3 : rl_dispatch ⟨3, 1000, 10, 300⟩ s2 req t2 ts3 ds = (r3, s3))
    (hrun4 : rl_dispatch ⟨3, 1000, 10, 300⟩ s3 req t3 ts4 ds = (r4, s4))
    (hrun5 : rl_dispatch ⟨3, 1000, 10, 300⟩ s4 req t4 ts5 ds = (r5, s5)) :
    (∃ p1, r1 = .forwarded p1 ∧ p1.status = 200)
    ∧ (∃ p2, r2 = .forwarded p2 ∧ p2.status = 200)
    ∧ (∃ p3, r3 = .forwarded p3 ∧ p3.status = 200
        ∧ headerGet p3.headers "X-RateLimit-Remaining-Minute" = some "0")
    ∧ (∃ q4, r4 = .limited q4 ∧ q4.status_code = 429
        ∧ headerGet q4.headers "Retry-After" = some "60")
    ∧ (∃ q5, r5 = .limited q5 ∧ q5.status_code = 429
        ∧ headerGet q5.headers "Retry-After" = some "60")
    ∧ mapGet s3.minute_requests (ip ++ ":minute") = [t0, t1, t2]
    ∧ mapGet s4.minute_requests (ip ++ ":minute") = [t0, t1, t2]
    ∧ mapGet s5.minute_requests (ip ++ ":minute") = [t0, t1, t2]
    ∧ mapGet s4.hour_requests (ip ++ ":hour") = mapGet s3.hour_requests (ip ++ ":hour")
    ∧ mapGet s5.hour_requests (ip ++ ":hour") = mapGet s3.hour_requests (ip ++ ":hour")
    ∧ (mapGet s4.burst_requests (ip ++ ":burst")).Sublist
        (mapGet s3.burst_requests (ip ++ ":burst"))
    ∧ (mapGet s5.burst_requests (ip ++ ":burst")).Sublist
        (mapGet s4.burst_requests (ip ++ ":burst")) := by
  -- step 1
  rw [rl_step_first req ip hip hpath c t0 ts1 ds] at hrun1
  obtain ⟨hr1, hs1⟩ := Prod.mk.injEq .. |>.mp hrun1
  subst hs1
  -- step 2
  rw [rl_step_forward req ip hip hpath [t0] [t0] [t0] _ t1 ts2 ds
    (by intro x hx; simp at hx; subst hx; linarith)
    (by intro x hx; simp at hx; subst hx; linarith)
    (by simp) (by simp) (by simp) (by simp) (by simp)] at hrun2
  obtain ⟨hr2, hs2⟩ := Prod.mk.injEq .. |>.mp hrun2
  subst hs2
  -- step 3
  have hB2len : (evictOlder t1 10 [t0] ++ [t1]).length < 10 := by
    have := List.Sublist.length_le (evictOlder_sublist t1 10 [t0])
    simp at this ⊢
    omega
  rw [rl_step_forward req ip hip hpath ([t0] ++ [t1]) ([t0] ++ [t1])
    (evictOlder t1 10 [t0] ++ [t1]) _ t2 ts3 ds
    (by intro x hx; simp at hx; rcases hx with h | h <;> subst h <;> linarith)
    (by intro x hx; simp at hx; rcases hx with h | h <;> subst h <;> linarith)
    (by simp) (by simp) hB2len (by simp) (by simp)] at hrun3
  obtain ⟨hr3, hs3⟩ := Prod.mk.injEq .. |>.mp hrun3
  subst hs3
  -- step 4 (limited)
  have hB3len : ((evictOlder t2 10 (evictOlder t1 10 [t0] ++ [t1])) ++ [t2]).length < 10 := by
    have h1 := List.Sublist.length_le (evictOlder_sublist t2 10 (evictOlder t1 10 [t0] ++ [t1]))
    have h2 := List.Sublist.length_le (evictOlder_sublist t1 10 [t0])
    simp at h1 h2 ⊢
    omega
  rw [rl_step_limited req ip hip hpath ([t0] ++ [t1] ++ [t2]) ([t0] ++ [t1] ++ [t2])
    (evictOlder t2 10 (evictOlder t1 10 [t0] ++ [t1]) ++ [t2]) _ t3 ts4 ds
    (by intro x hx; simp at hx; rcases hx with h | h | h <;> subst h <;> linarith)
    (by intro x hx; simp at hx; rcases hx with h | h | h <;> subst h <;> linarith)
    (by simp) (by simp) hB3len (by simp) (by simp)] at hrun4
  obtain ⟨hr4, hs4⟩ := Prod.mk.injEq .. |>.mp hrun4
  subst hs4
  -- step 5 (limited)
  have hB4len : (evictOlder t3 10 (evictOlder t2 10 (evictOlder t1 10 [t0] ++ [t1]) ++ [t2])).length < 10 := by
    have h1 := List.Sublist.length_le (evictOlder_sublist t3 10
      (evictOlder t2 10 (evictOlder t1 10 [t0] ++ [t1]) ++ [t2]))
    have h2 := List.Sublist.length_le (evictOlder_sublist t2 10 (evictOlder t1 10 [t0] ++ [t1]))
    have h3 := List.Sublist.length_le (evictOlder_sublist t1 10 [t0])
    simp at h1 h2 h3 ⊢
    omega
  rw [rl_step_limited req ip hip hpath ([t0] ++ [t1] ++ [t2]) ([t0] ++ [t1] ++ [t2])
    (evictOlder t3 10 (evictOlder t2 10 (evictOlder t1 10 [t0] ++ [t1]) ++ [t2])) _ t4 ts5 ds
    (by intro x hx; simp at hx; rcases hx with h | h | h <;> subst h <;> linarith)
    (by intro x hx; simp at hx; rcases hx with h | h | h <;> subst h <;> linarith)
    (by simp) (by simp) hB4len (by simp) (by simp)] at hrun5
  obtain ⟨hr5, hs5⟩ := Prod.mk.injEq .. |>.mp hrun5
  subst hs5
  refine ⟨?_, ?_, ?_, ?_, ?_, ?_, ?_, ?_, ?_, ?_, ?_, ?_⟩
  · exact ⟨_, hr1.symm, by rw [add_headers_status]; exact hds⟩
  · exact ⟨_, hr2.symm, by rw [add_headers_status]; exact hds⟩
  · refine ⟨_, hr3.symm, by rw [add_headers_status]; exact hds, ?_⟩
    rw [add_headers_remaining_minute]
    simp only [mapGet_single]
    norm_num
    rfl
  · exact ⟨_, hr4.symm, (rate_limit_response_fields req ts4).1,
      (rate_limit_response_fields req ts4).2⟩
  · exact ⟨_, hr5.symm, (rate_limit_response_fields req ts5).1,
      (rate_limit_response_fields req ts5).2⟩
  · simp [mapGet_single]
  · simp [mapGet_single]
  · simp [mapGet_single]
  · simp [mapGet_single]
  · simp [mapGet_single]
  · simp only [mapGet_single]
    exact evictOlder_sublist t3 10 _
  · simp only [mapGet_single]
    exact evictOlder_sublist t4 10 _

/-- Concrete request used to exercise the rate limiter: no proxy
headers, peer address 203.0.113.5, a non-sensitive path. -/
def c2_req : Request := ⟨none, none, some "203.0.113.5", "/api/accounts", "GET", some "cid-2"⟩

/-- Concrete downstream response. -/
def c2_ds : HttpResponse := ⟨200, []⟩

/-- The claim's configuration: 3 calls per minute, hour and burst
limits not binding. -/
def c2_cfg : RLConfig := ⟨3, 1000, 10, 300⟩

/-- First request at time 0 from empty state. -/
def c2_run1 : RLOutcome × RLState := rl_dispatch c2_cfg ⟨[], [], [], 0⟩ c2_req 0 "t" c2_ds

/-- Second request at time 1. -/
def c2_run2 : RLOutcome × RLState := rl_dispatch c2_cfg c2_run1.2 c2_req 1 "t" c2_ds

/-- Third request at time 2. -/
def c2_run3 : RLOutcome × RLState := rl_dispatch c2_cfg c2_run2.2 c2_req 2 "t" c2_ds

/-- Fourth request at time 3. -/
def c2_run4 : RLOutcome × RLState := rl_dispatch c2_cfg c2_run3.2 c2_req 3 "t" c2_ds

/-- Fifth request at time 4. -/
def c2_run5 : RLOutcome × RLState := rl_dispatch c2_cfg c2_run4.2 c2_req 4 "t" c2_ds

/-- C2 (witness): the rate-limiter theorem evaluated on 5 concrete
requests at times 0..4 from the same client. -/
theorem c2_rate_limiter_witness :
    (∃ p1, c2_run1.1 = .forwarded p1 ∧ p1.status = 200)
    ∧ (∃ p2, c2_run2.1 = .forwarded p2 ∧ p2.status = 200)
    ∧ (∃ p3, c2_run3.1 = .forwarded p3 ∧ p3.status = 200
        ∧ headerGet p3.headers "X-RateLimit-Remaining-Minute" = some "0")
    ∧ (∃ q4, c2_run4.1 = .limited q4 ∧ q4.status_code = 429
        ∧ headerGet q4.headers "Retry-After" = some "60")
    ∧ (∃ q5, c2_run5.1 = .limited q5 ∧ q5.status_code = 429
        ∧ headerGet q5.headers "Retry-After" = some "60")
    ∧ mapGet c2_run3.2.minute_requests ("203.0.113.5" ++ ":minute") = [0, 1, 2]
    ∧ mapGet c2_run4.2.minute_requests ("203.0.113.5" ++ ":minute") = [0, 1, 2]
    ∧ mapGet c2_run5.2.minute_requests ("203.0.113.5" ++ ":minute") = [0, 1, 2]
    ∧ mapGet c2_run4.2.hour_requests ("203.0.113.5" ++ ":hour")
        = mapGet c2_run3.2.hour_requests ("203.0.113.5" ++ ":hour")
    ∧ mapGet c2_run5.2.hour_requests ("203.0.113.5" ++ ":hour")
        = mapGet c2_run3.2.hour_requests ("203.0.113.5" ++ ":hour")
    ∧ (mapGet c2_run4.2.burst_requests ("203.0.113.5" ++ ":burst")).Sublist
        (mapGet c2_run3.2.burst_requests ("203.0.113.5" ++ ":burst"))
    ∧ (mapGet c2_run5.2.burst_requests ("203.0.113.5" ++ ":burst")).Sublist
        (mapGet c2_run4.2.burst_requests ("203.0.113.5" ++ ":burst")) :=
  c2_rate_limiter c2_req "203.0.113.5" rfl (by decide) 0 1 2 3 4 0 "t" "t" "t" "t" "t"
    c2_ds rfl (by norm_num) (by norm_num) (by norm_num) (by norm_num) (by norm_num)
    c2_run1.1 c2_run2.1 c2_run3.1 c2_run4.1 c2_run5.1
    c2_run1.2 c2_run2.2 c2_run3.2 c2_run4.2 c2_run5.2
    rfl rfl rfl rfl rfl
